/-
Verification of the PR-generation and commit-generation orchestration of
otak-committer (src/commands/generatePR.ts and the commit-message extension
in the unnamed sources), as a shallow embedding in Lean 4.

The embedding translates the TypeScript control flow into pure Lean
functions.  External collaborators (GitHub client, OpenAI client, VS Code
UI, file system) are modelled by an environment record that fixes the
response of each external call; the orchestrator is a pure function from
that environment to an observable run result (creation calls issued,
messages shown, cleanup actions performed, terminal record).
-/
import Mathlib

namespace OtakCommitter

/-- `needle` occurs as a substring of `haystack`; mirrors TypeScript
`haystack.includes(needle)`. -/
def strIncludes (haystack needle : String) : Bool :=
  decide (needle.data <:+: haystack.data)

/-- Truthiness of an optional number, mirroring TypeScript `!!x` on a
`number | undefined`: `undefined` and `0` are falsy. -/
def natTruthy : Option Nat → Bool
  | none => false
  | some n => n != 0

/-! ## File-system model for the preview directory

`PREVIEW_DIR` is modelled as `Option (List String)`: `none` means the
directory does not exist, `some files` means it exists and holds `files`. -/

/-- Error codes of `vscode.FileSystemError` that matter to the code. -/
inductive FsError
  | FileNotFound
  | Other
deriving Repr, DecidableEq

/-- `vscode.workspace.fs.stat(PREVIEW_DIR)`: succeeds iff the directory
exists, otherwise raises `FileNotFound`. -/
def statDir : Option (List String) → Except FsError Unit
  | none => .error .FileNotFound
  | some _ => .ok ()

/-- `vscode.workspace.fs.delete(PREVIEW_DIR, {recursive: true})`: removes
the directory and everything in it. -/
def deleteDirRecursive : Option (List String) → Option (List String) :=
  fun _ => none

/-- `cleanupPreviewFiles` (generatePR.ts lines 19-31): stat the preview
directory and delete it recursively when present.  The catch block
swallows every error (`FileNotFound` silently, anything else is only
logged), so the function never raises — reflected by the non-`Except`
return type. -/
def cleanupPreviewFiles (d : Option (List String)) : Option (List String) :=
  match statDir d with
  | .ok _ => deleteDirRecursive d
  | .error _ => d

/-! ## Editor-tab model for the preview presenter -/

/-- A VS Code editor tab: its label and whether its input is a
`TabInputWebview`. -/
structure Tab where
  label : String
  isWebview : Bool
deriving Repr, DecidableEq

/-- The predicate of `closePreviewTabs` (generatePR.ts lines 40-49):
a tab counts as a preview tab when its label contains "Preview" or
"プレビュー" and its input is a webview. -/
def isPreviewTab (t : Tab) : Bool :=
  (strIncludes t.label "Preview" || strIncludes t.label "プレビュー") && t.isWebview

/-- The visible UI and preview-directory state threaded through the
preview presenter. -/
structure PreviewState where
  tabs : List Tab
  dir : Option (List String)
deriving Repr, DecidableEq

/-- `closePreviewTabs`: closes every preview tab in every tab group. -/
def closePreviewTabs (st : PreviewState) : PreviewState :=
  { st with tabs := st.tabs.filter (fun t => !isPreviewTab t) }

/-- The webview tab VS Code opens for `markdown.showPreview` on file
`name`. -/
def previewTab (name : String) : Tab :=
  { label := "Preview " ++ name, isWebview := true }

/-- `showMarkdownPreview` (generatePR.ts lines 51-78) on its success path:
clean the preview directory, recreate it, close previous preview tabs,
write the fresh file `name`, and open the markdown preview for it.
`name` stands for the collision-resistant random file name.  Returns the
new state and the handle (the file name). -/
def showMarkdownPreview (name : String) (st : PreviewState) :
    PreviewState × Option String :=
  let st1 : PreviewState := { st with dir := cleanupPreviewFiles st.dir }
  let st2 : PreviewState := { st1 with dir := some [] }
  let st3 : PreviewState := closePreviewTabs st2
  let st4 : PreviewState := { st3 with dir := some [name] }
  let st5 : PreviewState := { st4 with tabs := st4.tabs ++ [previewTab name] }
  (st5, some name)

/-! ## Data model of the PR-generation orchestrator (generatePR.ts) -/

/-- The branch pair returned by `GitHubService.selectBranches`. -/
structure Branches where
  base : String
  compare : String
deriving Repr, DecidableEq

/-- A GitHub issue as consumed by the orchestrator. -/
structure Issue where
  number : Nat
  title : String
  labels : List String
deriving Repr, DecidableEq

/-- The diff summary returned by `github.getBranchDiffDetails`; only the
file list is inspected by the orchestrator. -/
structure DiffDetails where
  files : List String
deriving Repr, DecidableEq

/-- The content pair produced by `openai.generatePRContent`. -/
structure GeneratedPR where
  title : String
  body : String
deriving Repr, DecidableEq

/-- The pull-request record returned by `github.createPullRequest`.
`number` is `Option Nat` because the code defensively checks
`!pr.number`. -/
structure PRRecord where
  number : Option Nat
  draft : Bool
  html_url : String
deriving Repr, DecidableEq

/-- The argument record the orchestrator passes to
`github.createPullRequest`. -/
structure PRParams where
  base : String
  compare : String
  title : String
  body : String
  issueNumber : Option Nat
  draft : Bool
deriving Repr, DecidableEq

/-- A thrown error as the orchestrator observes it: its `message` and the
optional `response.errors` array of a GitHub API error. -/
structure GhError where
  message : String
  responseErrors : Option (List String)
deriving Repr, DecidableEq

/-- Environment: the response of every external call the orchestrator
makes, in program order.  `issuePick` and `prTypePick` model the user's
quick-pick choices (`none` = Escape/cancel); `issuePick` is an index into
the displayed issue list (the UI can only return a shown item or cancel). -/
structure Env where
  selectBranches : Option Branches
  githubInit : Bool
  issues : List Issue
  issuePick : Option Nat
  gitInit : Bool
  diff1 : DiffDetails
  openaiInit : Bool
  genPRContent : Except GhError (Option GeneratedPR)
  showPreviewOk : Bool
  prTypePick : Option Bool
  diff2 : DiffDetails
  createPR1 : Except GhError (Option PRRecord)
  createPR2 : Except GhError (Option PRRecord)
  openAction : Bool
deriving Repr

/-- Observable outcome of one `generatePR` run. `cleanupCount` counts the
orchestrator-level cleanup events (the `closePreviewTabs` +
`cleanupPreviewFiles` pair after successful creation, lines 273-274, and
the one in the `finally` block, lines 314-315); the sweep inside
`showMarkdownPreview` belongs to the preview presenter, not to this
counter. `previewLiveAtEnd` records whether a preview handle (tab +
backing file) is still live when the function returns. -/
structure RunResult where
  createCalls : List PRParams
  errors : List String
  infos : List String
  cleanupCount : Nat
  issuePickShown : Bool
  previewShown : Option String
  prResult : Option PRRecord
  openedUrl : Option String
  previewLiveAtEnd : Bool
deriving Repr, DecidableEq

/-- The empty run result: an early `return` before any preview exists. -/
def RunResult.quiet : RunResult :=
  { createCalls := [], errors := [], infos := [], cleanupCount := 0,
    issuePickShown := false, previewShown := none, prResult := none,
    openedUrl := none, previewLiveAtEnd := false }

/-- Preview content (generatePR.ts lines 170-173):
`title\n\n---\n\nbody`, plus `\n\nResolves #N` when `issueNumber` is
truthy. -/
def mkPreviewContent (gen : GeneratedPR) (issueNumber : Option Nat) : String :=
  let base := gen.title ++ "\n\n---\n\n" ++ gen.body
  if natTruthy issueNumber then base ++ "\n\nResolves #" ++ toString (issueNumber.getD 0)
  else base

/-- The PR description (generatePR.ts lines 198-200): the generated body,
with `\n\nResolves #N` appended when `issueNumber` is truthy. -/
def mkDescription (gen : GeneratedPR) (issueNumber : Option Nat) : String :=
  if natTruthy issueNumber then gen.body ++ "\n\nResolves #" ++ toString (issueNumber.getD 0)
  else gen.body

/-- The substring `createPullRequest` errors are tested against to detect
missing draft-PR support. -/
def draftUnsupportedNeedle : String := "Draft pull requests are not supported"

/-- The notification shown before the regular-PR fallback call. -/
def draftFallbackInfo : String :=
  "Draft PRs are only available in GitHub Team and Enterprise. Creating a regular PR instead."

/-- Message classification of the top-level catch (generatePR.ts lines
294-309). -/
def classifyError (e : GhError) : String :=
  if e.message = "No changes to create a pull request" then
    "No changes found between selected branches. Please make some changes before creating a PR."
  else
    match e.responseErrors with
    | some errs => "Failed to generate PR: " ++ String.intercalate ", " errs
    | none => "Failed to generate PR: " ++ e.message

/-- The creation step (generatePR.ts lines 216-267): the first
`createPullRequest` call, validation of its record, and the inner catch
that either falls back to a regular PR (when a draft was requested and the
error message contains `draftUnsupportedNeedle`) or rethrows.  Returns the
outcome together with the list of creation calls issued and the info
messages shown. -/
def createPhase (env : Env) (draft : Bool) (params1 : PRParams) :
    Except GhError PRRecord × List PRParams × List String :=
  let handle : GhError → Except GhError PRRecord × List PRParams × List String :=
    fun e =>
      if draft && strIncludes e.message draftUnsupportedNeedle then
        let params2 : PRParams := { params1 with draft := false }
        match env.createPR2 with
        | .error e2 => (.error e2, [params1, params2], [draftFallbackInfo])
        | .ok none =>
            (.error ⟨"Failed to create regular PR: Invalid response from GitHub", none⟩,
             [params1, params2], [draftFallbackInfo])
        | .ok (some p2) =>
            if natTruthy p2.number then (.ok p2, [params1, params2], [draftFallbackInfo])
            else
              (.error ⟨"Failed to create regular PR: Invalid response from GitHub", none⟩,
               [params1, params2], [draftFallbackInfo])
      else (.error e, [params1], [])
  match env.createPR1 with
  | .error e => handle e
  | .ok none => handle ⟨"Failed to create PR: Invalid response from GitHub", none⟩
  | .ok (some p) =>
      if natTruthy p.number then (.ok p, [params1], [])
      else handle ⟨"Failed to create PR: Invalid response from GitHub", none⟩

/-- The issue number the orchestrator ends up with (generatePR.ts lines
97-118): when the fetched issue list is non-empty the quick-pick is shown
and may return one of its items; otherwise, and on cancel, no issue number
is selected. -/
def selectedIssueNumber (env : Env) : Option Nat :=
  if 0 < env.issues.length then
    match env.issuePick.bind (fun i => env.issues.get? i) with
    | some issue => some issue.number
    | none => none
  else none

/-- Whether the issue quick-pick UI is displayed: exactly when the fetched
issue list is non-empty. -/
def issueUiShown (env : Env) : Bool :=
  decide (0 < env.issues.length)

/-- The argument record of the first `createPullRequest` call (generatePR.ts
lines 226-233). -/
def firstCallParams (env : Env) (branches : Branches) (generatedPR : GeneratedPR)
    (draft : Bool) : PRParams :=
  { base := branches.base, compare := branches.compare, title := generatedPR.title,
    body := mkDescription generatedPR (selectedIssueNumber env),
    issueNumber := selectedIssueNumber env, draft := draft }

/-- The run result of a run that passed every gate up to and including the
Validate re-check (generatePR.ts lines 216-292 plus the surrounding
catch/finally): the creation phase followed by either the success path
(close preview, cleanup, success notification, optional browser open) or
the error path (classified error message, cleanup in `finally`). -/
def creationOutcome (env : Env) (branches : Branches) (generatedPR : GeneratedPR)
    (draft : Bool) : RunResult :=
  let pContent := mkPreviewContent generatedPR (selectedIssueNumber env)
  match createPhase env draft (firstCallParams env branches generatedPR draft) with
  | (.ok p, calls, fInfos) =>
      let prTypeStr := if p.draft then "Draft PR" else "Pull Request"
      { createCalls := calls, errors := [],
        infos := fInfos ++ [prTypeStr ++ " #" ++ toString (p.number.getD 0) ++ " created successfully!"],
        cleanupCount := 1, issuePickShown := issueUiShown env,
        previewShown := some pContent, prResult := some p,
        openedUrl := if env.openAction then some p.html_url else none,
        previewLiveAtEnd := false }
  | (.error e, calls, fInfos) =>
      { createCalls := calls, errors := [classifyError e],
        infos := fInfos, cleanupCount := 1, issuePickShown := issueUiShown env,
        previewShown := some pContent, prResult := none, openedUrl := none,
        previewLiveAtEnd := false }

/-- The PR-generation orchestrator `generatePR` (generatePR.ts lines
80-321), as a pure function from the environment to the observable run
result.  Early returns before the preview leave `cleanupCount = 0`
(the `finally` guard `if (previewFile)` is false there); every exit after
the preview was shown performs exactly one cleanup. -/
def generatePR (env : Env) : RunResult :=
  match env.selectBranches with
  | none => RunResult.quiet
  | some branches =>
  if !env.githubInit then RunResult.quiet else
  let issuesShown := issueUiShown env
  let issueNumber : Option Nat := selectedIssueNumber env
  if !env.gitInit then { RunResult.quiet with issuePickShown := issuesShown } else
  if !env.openaiInit then { RunResult.quiet with issuePickShown := issuesShown } else
  match env.genPRContent with
  | .error e =>
      { RunResult.quiet with
          issuePickShown := issuesShown,
          errors := ["Error generating PR content: " ++ e.message] }
  | .ok none =>
      { RunResult.quiet with
          issuePickShown := issuesShown,
          errors := ["Failed to generate PR content. Please try again."] }
  | .ok (some generatedPR) =>
  let pContent := mkPreviewContent generatedPR issueNumber
  if !env.showPreviewOk then
    { RunResult.quiet with
        issuePickShown := issuesShown,
        errors := ["Failed to show preview"] }
  else
  match env.prTypePick with
  | none =>
      { RunResult.quiet with
          issuePickShown := issuesShown,
          previewShown := some pContent,
          cleanupCount := 1 }
  | some draft =>
  if env.diff2.files.length = 0 then
    { createCalls := [], errors := [classifyError ⟨"No changes to create a pull request", none⟩],
      infos := [], cleanupCount := 1, issuePickShown := issuesShown,
      previewShown := some pContent, prResult := none, openedUrl := none,
      previewLiveAtEnd := false }
  else creationOutcome env branches generatedPR draft

/-! ## Commit-generation orchestrator (unnamed/part_001, command
`vscode-scm-comitter.generateMessage`) -/

/-- Truthiness of an optional string, mirroring TypeScript `!x` on a
`string | undefined` (undefined and the empty string are falsy). -/
def strTruthy : Option String → Bool
  | none => false
  | some s => s != ""

/-- Environment of one commit-generation run: configuration reads, the
two staged-diff fetches, the repository state and the completion call. -/
structure CommitEnv where
  apiKey : Option String
  settingsResponseYes : Bool
  apiKeyAfter : Option String
  stagedDiff1 : String
  workingTreeChanges : List String
  stagedDiff2 : String
  aiResult : Except String String
deriving Repr

/-- Observable outcome of one commit-generation run.  `addCalled` records
whether `repository.add` was invoked (it is, inside `stageAllChanges`,
exactly when the working tree has changes); `aiCalled` whether the
completion endpoint was called; `committed` whether the system performed a
commit (the code has no commit call at all, so this is `false` on every
path by construction). -/
structure CommitResult where
  stageAllCalled : Bool
  addCalled : Bool
  aiCalled : Bool
  inputBoxValue : Option String
  warnings : List String
  infos : List String
  errors : List String
  committed : Bool
deriving Repr, DecidableEq

/-- The empty commit-run result. -/
def CommitResult.quiet : CommitResult :=
  { stageAllCalled := false, addCalled := false, aiCalled := false,
    inputBoxValue := none, warnings := [], infos := [], errors := [],
    committed := false }

/-- `stageAllChanges` (part_001 lines 179-184): calls `repository.add` on
the working-tree changes when there are any. -/
def stageAllChanges (workingTreeChanges : List String) : Bool :=
  0 < workingTreeChanges.length

/-- The diff-dependent tail of the command (part_001 lines 247-274): fetch
the staged diff; when empty, stage everything and re-fetch; when still
empty, warn `No changes to commit` and stop without calling the completion
endpoint; otherwise call it and write the message into the input box.  A
completion error is caught and shown. -/
def generateMessageBody (env : CommitEnv) : CommitResult :=
  let diff1 := env.stagedDiff1
  if diff1 != "" then
    match env.aiResult with
    | .ok msg =>
        { CommitResult.quiet with aiCalled := true, inputBoxValue := some msg }
    | .error e =>
        { CommitResult.quiet with aiCalled := true, errors := ["Error: " ++ e] }
  else
    let staged := stageAllChanges env.workingTreeChanges
    let diff2 := env.stagedDiff2
    if diff2 = "" then
      { CommitResult.quiet with
          stageAllCalled := true,
          addCalled := staged,
          warnings := ["No changes to commit"] }
    else
      match env.aiResult with
      | .ok msg =>
          { CommitResult.quiet with
              stageAllCalled := true,
              addCalled := staged,
              infos := ["Changes have been automatically staged"],
              aiCalled := true,
              inputBoxValue := some msg }
      | .error e =>
          { CommitResult.quiet with
              stageAllCalled := true,
              addCalled := staged,
              infos := ["Changes have been automatically staged"],
              aiCalled := true,
              errors := ["Error: " ++ e] }

/-- The full `generateMessage` command handler (part_001 lines 217-276):
the API-key gate (prompt to configure, re-read, abort when still missing)
followed by `generateMessageBody`. -/
def generateMessageCommand (env : CommitEnv) : CommitResult :=
  if strTruthy env.apiKey then generateMessageBody env
  else if !env.settingsResponseYes then CommitResult.quiet
  else if !(strTruthy env.apiKeyAfter) then CommitResult.quiet
  else generateMessageBody env

/-! ## Gate predicates and sample environments -/

/-- A `createPullRequest` response is valid exactly when the record is
present and its number is truthy (generatePR.ts `!pr || !pr.number`). -/
def prValid : Option PRRecord → Bool
  | none => false
  | some p => natTruthy p.number

/-- The run passes every gate up to and including ShowPreview: a branch
pair was chosen, the clients initialized, content was generated and the
preview rendered. -/
structure ReachesPreview (env : Env) (branches : Branches)
    (generatedPR : GeneratedPR) : Prop where
  hbr : env.selectBranches = some branches
  hgh : env.githubInit = true
  hgit : env.gitInit = true
  hoa : env.openaiInit = true
  hgen : env.genPRContent = .ok (some generatedPR)
  hprev : env.showPreviewOk = true

/-- The run additionally passes SelectPRType, so it reaches the Validate
re-check. -/
structure ReachesValidate (env : Env) (branches : Branches)
    (generatedPR : GeneratedPR) (draft : Bool) : Prop where
  hbr : env.selectBranches = some branches
  hgh : env.githubInit = true
  hgit : env.gitInit = true
  hoa : env.openaiInit = true
  hgen : env.genPRContent = .ok (some generatedPR)
  hprev : env.showPreviewOk = true
  htype : env.prTypePick = some draft

/-- Forget the PR-type gate. -/
def ReachesValidate.toPreview {env : Env} {branches : Branches}
    {generatedPR : GeneratedPR} {draft : Bool}
    (h : ReachesValidate env branches generatedPR draft) :
    ReachesPreview env branches generatedPR :=
  ⟨h.hbr, h.hgh, h.hgit, h.hoa, h.hgen, h.hprev⟩

/-- A concrete environment of a plain successful run: no issues, regular
PR, first creation call succeeds with PR #42. -/
def sampleEnv : Env :=
  { selectBranches := some ⟨"main", "feature/x"⟩,
    githubInit := true,
    issues := [],
    issuePick := none,
    gitInit := true,
    diff1 := ⟨["a.ts"]⟩,
    openaiInit := true,
    genPRContent := .ok (some ⟨"feat: add x", "body text"⟩),
    showPreviewOk := true,
    prTypePick := some false,
    diff2 := ⟨["a.ts"]⟩,
    createPR1 := .ok (some ⟨some 42, false, "https://example.test/42"⟩),
    createPR2 := .ok none,
    openAction := false }

/-- Draft requested, first creation call fails with the draft-unsupported
message, second succeeds with PR #43. -/
def sampleEnvFallback : Env :=
  { sampleEnv with
      prTypePick := some true,
      createPR1 := .error ⟨"Validation Failed: Draft pull requests are not supported in this repository.", none⟩,
      createPR2 := .ok (some ⟨some 43, false, "https://example.test/43"⟩) }

/-- The Validate re-fetch returns an empty file list. -/
def sampleEnvEmptyDiff : Env :=
  { sampleEnv with diff2 := ⟨[]⟩ }

/-- The first creation call succeeds at transport level but returns no
record. -/
def sampleEnvInvalidResp : Env :=
  { sampleEnv with createPR1 := .ok none }

/-- The first creation call fails with an unrelated error while a draft
was requested. -/
def sampleEnvOtherError : Env :=
  { sampleEnv with
      prTypePick := some true,
      createPR1 := .error ⟨"Validation Failed: A pull request already exists.", none⟩ }

/-- One open issue #7 which the user selects. -/
def sampleEnvIssue : Env :=
  { sampleEnv with
      issues := [⟨7, "bug report", ["bug"]⟩],
      issuePick := some 0 }

/-- A commit-generation environment: nothing staged, a working-tree change
that stages successfully, completion succeeds. -/
def sampleCommitEnv : CommitEnv :=
  { apiKey := some "sk-test",
    settingsResponseYes := false,
    apiKeyAfter := none,
    stagedDiff1 := "",
    workingTreeChanges := ["src/a.ts"],
    stagedDiff2 := "diff --git a b",
    aiResult := .ok "feat: add feature" }

/-! ## Theorems -/

/-- The tab opened by `markdown.showPreview` satisfies the predicate of
`closePreviewTabs`: its label starts with "Preview" and it is a webview. -/
theorem isPreviewTab_previewTab (name : String) :
    isPreviewTab (previewTab name) = true := by
  have h3 : "Preview".data <:+: ("Preview " ++ name).data := by
    show ∃ s t, s ++ "Preview".data ++ t = ("Preview " ++ name).data
    refine ⟨[], ' ' :: name.data, ?_⟩
    show "Preview".data ++ (' ' :: name.data) = ("Preview " ++ name).data
    rfl
  have h4 : strIncludes ("Preview " ++ name) "Preview" = true := by
    simpa [strIncludes] using h3
  simp [isPreviewTab, previewTab, h4]

/-- After one `showMarkdownPreview`, exactly one preview tab is visible
(the fresh one) and the preview directory holds exactly the fresh file. -/
theorem showMarkdownPreview_one_live (name : String) (st : PreviewState) :
    ((showMarkdownPreview name st).1).tabs.filter isPreviewTab = [previewTab name] ∧
    ((showMarkdownPreview name st).1).dir = some [name] := by
  constructor
  · show ((st.tabs.filter (fun t => !isPreviewTab t)) ++ [previewTab name]).filter isPreviewTab
        = [previewTab name]
    rw [List.filter_append, List.filter_filter]
    have hnil : st.tabs.filter (fun a => isPreviewTab a && !isPreviewTab a) = [] := by
      apply List.filter_eq_nil_iff.mpr
      intro a _
      simp
    rw [hnil]
    simp [isPreviewTab_previewTab]
  · rfl

/-- C8: showing a preview is idempotent with respect to visible previews:
each `showMarkdownPreview` first closes every previous preview tab and
deletes the backing directory, so after any show exactly one preview tab
is live and the directory holds only the fresh file; in particular two
shows in sequence leave exactly one visible preview (the second one). -/
theorem showMarkdownPreview_single_slot (st : PreviewState) (n1 n2 : String) :
    (((showMarkdownPreview n1 st).1).tabs.filter isPreviewTab = [previewTab n1] ∧
     ((showMarkdownPreview n1 st).1).dir = some [n1]) ∧
    (((showMarkdownPreview n2 (showMarkdownPreview n1 st).1).1).tabs.filter isPreviewTab
        = [previewTab n2] ∧
     ((showMarkdownPreview n2 (showMarkdownPreview n1 st).1).1).dir = some [n2]) :=
  ⟨showMarkdownPreview_one_live n1 st,
   showMarkdownPreview_one_live n2 (showMarkdownPreview n1 st).1⟩

/-- C10: `cleanupPreviewFiles` is total (its return type carries no error:
every error of the stat/delete calls is swallowed by the catch block) and
idempotent: when the directory is absent it completes without raising and
leaves the state unchanged, when present it deletes the whole directory,
and running it twice equals running it once. -/
theorem cleanupPreviewFiles_total_idempotent :
    cleanupPreviewFiles none = none ∧
    (∀ files : List String, cleanupPreviewFiles (some files) = none) ∧
    (∀ d : Option (List String),
      cleanupPreviewFiles (cleanupPreviewFiles d) = cleanupPreviewFiles d) := by
  refine ⟨rfl, fun files => rfl, fun d => ?_⟩
  cases d <;> rfl

/-- Reduction of `generatePR` under the gates up to the Validate check. -/
theorem generatePR_of_reachesValidate (env : Env) (b : Branches) (g : GeneratedPR)
    (draft : Bool) (h : ReachesValidate env b g draft) :
    generatePR env =
      if env.diff2.files.length = 0 then
        { createCalls := [],
          errors := [classifyError ⟨"No changes to create a pull request", none⟩],
          infos := [], cleanupCount := 1, issuePickShown := issueUiShown env,
          previewShown := some (mkPreviewContent g (selectedIssueNumber env)),
          prResult := none, openedUrl := none, previewLiveAtEnd := false }
      else creationOutcome env b g draft := by
  obtain ⟨hbr, hgh, hgit, hoa, hgen, hprev, htype⟩ := h
  simp [generatePR, hbr, hgh, hgit, hoa, hgen, hprev, htype]

/-- The creation phase issues either exactly the first call, or exactly
the first call followed by its draft-false copy. -/
theorem createPhase_calls (env : Env) (draft : Bool) (params1 : PRParams) :
    (createPhase env draft params1).2.1 = [params1] ∨
    (createPhase env draft params1).2.1 = [params1, { params1 with draft := false }] := by
  unfold createPhase
  cases env.createPR1 with
  | error e =>
      simp only
      split
      · cases env.createPR2 with
        | error e2 => simp
        | ok pr2 =>
            cases pr2 with
            | none => simp
            | some p2 =>
                by_cases hv : natTruthy p2.number = true <;> simp [hv]
      · simp
  | ok pr =>
      cases pr with
      | none =>
          simp only
          split
          · cases env.createPR2 with
            | error e2 => simp
            | ok pr2 =>
                cases pr2 with
                | none => simp
                | some p2 =>
                    by_cases hv : natTruthy p2.number = true <;> simp [hv]
          · simp
      | some p =>
          simp only
          split
          · simp
          · split
            · cases env.createPR2 with
              | error e2 => simp
              | ok pr2 =>
                  cases pr2 with
                  | none => simp
                  | some p2 =>
                      by_cases hv : natTruthy p2.number = true <;> simp [hv]
            · simp

/-- The creation calls of the creation outcome are those of the creation
phase, whatever its result. -/
theorem creationOutcome_createCalls (env : Env) (b : Branches) (g : GeneratedPR)
    (draft : Bool) :
    (creationOutcome env b g draft).createCalls =
      (createPhase env draft (firstCallParams env b g draft)).2.1 := by
  unfold creationOutcome
  rcases hcp : createPhase env draft (firstCallParams env b g draft) with ⟨out, calls, fInfos⟩
  cases out <;> simp

/-- The preview stays recorded whatever the creation phase does. -/
theorem creationOutcome_previewShown (env : Env) (b : Branches) (g : GeneratedPR)
    (draft : Bool) :
    (creationOutcome env b g draft).previewShown =
      some (mkPreviewContent g (selectedIssueNumber env)) := by
  unfold creationOutcome
  rcases hcp : createPhase env draft (firstCallParams env b g draft) with ⟨out, calls, fInfos⟩
  cases out <;> simp

/-- Cleanup runs exactly once after the creation phase, on both the
success and the error path. -/
theorem creationOutcome_cleanupCount (env : Env) (b : Branches) (g : GeneratedPR)
    (draft : Bool) :
    (creationOutcome env b g draft).cleanupCount = 1 := by
  unfold creationOutcome
  rcases hcp : createPhase env draft (firstCallParams env b g draft) with ⟨out, calls, fInfos⟩
  cases out <;> simp

/-- No preview handle survives the creation outcome. -/
theorem creationOutcome_previewLiveAtEnd (env : Env) (b : Branches) (g : GeneratedPR)
    (draft : Bool) :
    (creationOutcome env b g draft).previewLiveAtEnd = false := by
  unfold creationOutcome
  rcases hcp : createPhase env draft (firstCallParams env b g draft) with ⟨out, calls, fInfos⟩
  cases out <;> simp

/-- On a creation-phase success, the terminal result is the returned
record. -/
theorem creationOutcome_prResult_ok (env : Env) (b : Branches) (g : GeneratedPR)
    (draft : Bool) (p : PRRecord)
    (he : (createPhase env draft (firstCallParams env b g draft)).1 = .ok p) :
    (creationOutcome env b g draft).prResult = some p := by
  unfold creationOutcome
  rcases hcp : createPhase env draft (firstCallParams env b g draft) with ⟨out, calls, fInfos⟩
  rw [hcp] at he
  cases out with
  | ok q => cases he; simp
  | error e => cases he

/-- On a creation-phase error, the terminal result is empty, exactly the
classified message is shown, and nothing is opened in the browser. -/
theorem creationOutcome_err (env : Env) (b : Branches) (g : GeneratedPR)
    (draft : Bool) (e : GhError)
    (he : (createPhase env draft (firstCallParams env b g draft)).1 = .error e) :
    (creationOutcome env b g draft).prResult = none ∧
    (creationOutcome env b g draft).errors = [classifyError e] ∧
    (creationOutcome env b g draft).openedUrl = none := by
  unfold creationOutcome
  rcases hcp : createPhase env draft (firstCallParams env b g draft) with ⟨out, calls, fInfos⟩
  rw [hcp] at he
  cases out with
  | ok q => cases he
  | error e2 => cases he; simp

/-- The message thrown for an invalid first-call response does not contain
the draft-unsupported needle, so it can never trigger the fallback. -/
theorem invalidMsg_no_needle :
    strIncludes "Failed to create PR: Invalid response from GitHub"
      draftUnsupportedNeedle = false := by
  decide

/-- Neither does the message thrown for an invalid fallback response. -/
theorem invalidRegularMsg_no_needle :
    strIncludes "Failed to create regular PR: Invalid response from GitHub"
      draftUnsupportedNeedle = false := by
  decide

/-- When a draft was requested and the first call failed with the
draft-unsupported message, the creation phase issues exactly the fallback
call after the first one: same arguments, `draft := false`. -/
theorem createPhase_fallback_calls (env : Env) (params1 : PRParams) (e : GhError)
    (h1 : env.createPR1 = .error e)
    (hm : strIncludes e.message draftUnsupportedNeedle = true) :
    (createPhase env true params1).2.1 = [params1, { params1 with draft := false }] := by
  unfold createPhase
  rw [h1]
  simp only [hm, Bool.and_self, if_pos]
  cases henv : env.createPR2 with
  | error e2 => simp
  | ok pr2 =>
      cases pr2 with
      | none => simp
      | some p2 => by_cases hv : natTruthy p2.number = true <;> simp [hv]

/-- In the fallback scenario with a valid second response, the creation
phase succeeds with the second call's record. -/
theorem createPhase_fallback_ok (env : Env) (params1 : PRParams) (e : GhError)
    (h1 : env.createPR1 = .error e)
    (hm : strIncludes e.message draftUnsupportedNeedle = true)
    (p2 : PRRecord) (h2 : env.createPR2 = .ok (some p2))
    (hv : natTruthy p2.number = true) :
    (createPhase env true params1).1 = .ok p2 := by
  unfold createPhase
  rw [h1]
  simp [hm, h2, hv]

/-- In the fallback scenario with an invalid second response, the creation
phase fails with the invalid-regular-PR message. -/
theorem createPhase_fallback_invalid2 (env : Env) (params1 : PRParams) (e : GhError)
    (h1 : env.createPR1 = .error e)
    (hm : strIncludes e.message draftUnsupportedNeedle = true)
    (pr2 : Option PRRecord) (h2 : env.createPR2 = .ok pr2)
    (hv : prValid pr2 = false) :
    (createPhase env true params1).1 =
      .error ⟨"Failed to create regular PR: Invalid response from GitHub", none⟩ := by
  unfold createPhase
  rw [h1]
  cases pr2 with
  | none => simp [hm, h2]
  | some p2 =>
      have hv2 : natTruthy p2.number = false := by simpa [prValid] using hv
      simp [hm, h2, hv2]

/-- Any first-call error that does not satisfy the fallback guard is
rethrown: one single creation call, no fallback. -/
theorem createPhase_rethrow (env : Env) (draft : Bool) (params1 : PRParams)
    (e : GhError) (h1 : env.createPR1 = .error e)
    (hg : (draft && strIncludes e.message draftUnsupportedNeedle) = false) :
    createPhase env draft params1 = (.error e, [params1], []) := by
  unfold createPhase
  rw [h1]
  simp [hg]

/-- A transport-successful first call with an invalid record (absent, or
with a falsy number) makes the creation phase fail with the
invalid-response message, and no fallback fires. -/
theorem createPhase_invalid1 (env : Env) (draft : Bool) (params1 : PRParams)
    (pr : Option PRRecord) (h1 : env.createPR1 = .ok pr)
    (hv : prValid pr = false) :
    createPhase env draft params1 =
      (.error ⟨"Failed to create PR: Invalid response from GitHub", none⟩, [params1], []) := by
  unfold createPhase
  rw [h1]
  have hg : (draft && strIncludes "Failed to create PR: Invalid response from GitHub"
      draftUnsupportedNeedle) = false := by
    rw [invalidMsg_no_needle, Bool.and_false]
  cases pr with
  | none => simp [hg]
  | some p =>
      have hv2 : natTruthy p.number = false := by simpa [prValid] using hv
      simp [hv2, hg]

/-- The computed issue number is empty when no issues were fetched or the
quick-pick was cancelled. -/
theorem selectedIssueNumber_none (env : Env)
    (h : env.issues = [] ∨ env.issuePick = none) :
    selectedIssueNumber env = none := by
  unfold selectedIssueNumber
  rcases h with h | h
  · simp [h]
  · simp [h]

/-- C1: in every run in which a draft was requested and the first
`createPullRequest` call raises the draft-unsupported error, the
orchestrator issues exactly one additional creation call with the same
arguments except `draft := false` (no third attempt is possible: the call
list is exactly these two), and when that second call returns a valid
record it becomes the run's terminal result. -/
theorem generatePR_draft_fallback (env : Env) (b : Branches) (g : GeneratedPR)
    (h : ReachesValidate env b g true) (hd : ¬env.diff2.files.length = 0)
    (e : GhError) (h1 : env.createPR1 = .error e)
    (hm : strIncludes e.message draftUnsupportedNeedle = true) :
    (generatePR env).createCalls =
      [firstCallParams env b g true,
       { firstCallParams env b g true with draft := false }] ∧
    (∀ p2 : PRRecord, env.createPR2 = .ok (some p2) → natTruthy p2.number = true →
      (generatePR env).prResult = some p2) := by
  rw [generatePR_of_reachesValidate env b g true h, if_neg hd]
  refine ⟨?_, ?_⟩
  · rw [creationOutcome_createCalls]
    exact createPhase_fallback_calls env _ e h1 hm
  · intro p2 h2 hv
    exact creationOutcome_prResult_ok env b g true p2
      (createPhase_fallback_ok env _ e h1 hm p2 h2 hv)

/-- C2: in every run in which the diff re-fetched at the Validate step has
an empty file list, `createPullRequest` is never invoked and the distinct
no-changes-between-branches message is the run's only error message. -/
theorem generatePR_empty_validate_diff (env : Env) (b : Branches) (g : GeneratedPR)
    (draft : Bool) (h : ReachesValidate env b g draft)
    (hd : env.diff2.files = []) :
    (generatePR env).createCalls = [] ∧
    (generatePR env).errors =
      ["No changes found between selected branches. Please make some changes before creating a PR."] := by
  rw [generatePR_of_reachesValidate env b g draft h]
  have hl : env.diff2.files.length = 0 := by simp [hd]
  rw [if_pos hl]
  refine ⟨rfl, ?_⟩
  simp [classifyError]

/-- C3: a `createPullRequest` response whose record is absent or lacks a
truthy number is treated as a creation failure: the run ends with no
terminal record, a non-empty error report and no browser action — both
for the initial call and for the fallback call. -/
theorem generatePR_invalid_record_fails (env : Env) (b : Branches) (g : GeneratedPR)
    (draft : Bool) (h : ReachesValidate env b g draft)
    (hd : ¬env.diff2.files.length = 0) :
    (∀ pr : Option PRRecord, env.createPR1 = .ok pr → prValid pr = false →
      (generatePR env).prResult = none ∧ (generatePR env).errors ≠ [] ∧
      (generatePR env).openedUrl = none) ∧
    (∀ e : GhError, ∀ pr2 : Option PRRecord, draft = true →
      env.createPR1 = .error e →
      strIncludes e.message draftUnsupportedNeedle = true →
      env.createPR2 = .ok pr2 → prValid pr2 = false →
      (generatePR env).prResult = none ∧ (generatePR env).errors ≠ [] ∧
      (generatePR env).openedUrl = none) := by
  rw [generatePR_of_reachesValidate env b g draft h, if_neg hd]
  constructor
  · intro pr h1 hv
    have he : (createPhase env draft (firstCallParams env b g draft)).1 =
        .error ⟨"Failed to create PR: Invalid response from GitHub", none⟩ := by
      rw [createPhase_invalid1 env draft _ pr h1 hv]
    obtain ⟨hr, herr, hurl⟩ := creationOutcome_err env b g draft _ he
    exact ⟨hr, by rw [herr]; simp, hurl⟩
  · intro e pr2 hdraft h1 hm h2 hv
    subst hdraft
    have he : (createPhase env true (firstCallParams env b g true)).1 =
        .error ⟨"Failed to create regular PR: Invalid response from GitHub", none⟩ :=
      createPhase_fallback_invalid2 env _ e h1 hm pr2 h2 hv
    obtain ⟨hr, herr, hurl⟩ := creationOutcome_err env b g true _ he
    exact ⟨hr, by rw [herr]; simp, hurl⟩

/-- C9: the fallback fires only for a draft request whose creation error
mentions the draft-unsupported text; any other creation error — including
that same text when a regular PR was requested — is rethrown: exactly one
creation call was made, the run has no terminal record, and the classified
error is shown. -/
theorem generatePR_no_fallback_other_errors (env : Env) (b : Branches)
    (g : GeneratedPR) (draft : Bool) (h : ReachesValidate env b g draft)
    (hd : ¬env.diff2.files.length = 0) (e : GhError)
    (h1 : env.createPR1 = .error e)
    (hg : ¬(draft = true ∧ strIncludes e.message draftUnsupportedNeedle = true)) :
    (generatePR env).createCalls = [firstCallParams env b g draft] ∧
    (generatePR env).prResult = none ∧
    (generatePR env).errors = [classifyError e] := by
  rw [generatePR_of_reachesValidate env b g draft h, if_neg hd]
  have hgb : (draft && strIncludes e.message draftUnsupportedNeedle) = false := by
    cases hdr : draft with
    | false => rw [Bool.false_and]
    | true =>
        cases hin : strIncludes e.message draftUnsupportedNeedle with
        | false => rw [Bool.and_false]
        | true => exact absurd ⟨hdr, hin⟩ hg
  have hcp := createPhase_rethrow env draft (firstCallParams env b g draft) e h1 hgb
  have he : (createPhase env draft (firstCallParams env b g draft)).1 = .error e := by
    rw [hcp]
  obtain ⟨hr, herr, _⟩ := creationOutcome_err env b g draft e he
  refine ⟨?_, hr, herr⟩
  rw [creationOutcome_createCalls, hcp]

/-- The issue-UI flag of the creation outcome. -/
theorem creationOutcome_issuePickShown (env : Env) (b : Branches) (g : GeneratedPR)
    (draft : Bool) :
    (creationOutcome env b g draft).issuePickShown = issueUiShown env := by
  unfold creationOutcome
  rcases hcp : createPhase env draft (firstCallParams env b g draft) with ⟨out, calls, fInfos⟩
  cases out <;> simp

/-- Under the gates up to ShowPreview, the preview carries exactly the
content computed from the generated title, body and selected issue. -/
theorem generatePR_previewShown (env : Env) (b : Branches) (g : GeneratedPR)
    (h : ReachesPreview env b g) :
    (generatePR env).previewShown = some (mkPreviewContent g (selectedIssueNumber env)) := by
  obtain ⟨hbr, hgh, hgit, hoa, hgen, hprev⟩ := h
  cases htp : env.prTypePick with
  | none => simp [generatePR, hbr, hgh, hgit, hoa, hgen, hprev, htp]
  | some draft =>
      by_cases hd : env.diff2.files.length = 0
      · simp [generatePR, hbr, hgh, hgit, hoa, hgen, hprev, htp, hd]
      · simp [generatePR, hbr, hgh, hgit, hoa, hgen, hprev, htp, hd,
          creationOutcome_previewShown]

/-- Every creation call a gated run issues carries the chosen branch pair,
the generated title, the computed description and the selected issue
number. -/
theorem generatePR_calls_fields (env : Env) (b : Branches) (g : GeneratedPR)
    (h : ReachesPreview env b g) :
    ∀ c ∈ (generatePR env).createCalls,
      c.base = b.base ∧ c.compare = b.compare ∧ c.title = g.title ∧
      c.body = mkDescription g (selectedIssueNumber env) ∧
      c.issueNumber = selectedIssueNumber env := by
  obtain ⟨hbr, hgh, hgit, hoa, hgen, hprev⟩ := h
  cases htp : env.prTypePick with
  | none => simp [generatePR, hbr, hgh, hgit, hoa, hgen, hprev, htp, RunResult.quiet]
  | some draft =>
      by_cases hd : env.diff2.files.length = 0
      · simp [generatePR, hbr, hgh, hgit, hoa, hgen, hprev, htp, hd]
      · have heq : generatePR env = creationOutcome env b g draft := by
          simp [generatePR, hbr, hgh, hgit, hoa, hgen, hprev, htp, hd]
        rw [heq, creationOutcome_createCalls]
        intro c hc
        rcases createPhase_calls env draft (firstCallParams env b g draft) with hl | hl <;>
          rw [hl] at hc
        · simp only [List.mem_singleton] at hc
          subst hc
          exact ⟨rfl, rfl, rfl, rfl, rfl⟩
        · simp only [List.mem_cons, List.mem_singleton, List.not_mem_nil, or_false] at hc
          rcases hc with hc | hc <;> subst hc
          · exact ⟨rfl, rfl, rfl, rfl, rfl⟩
          · exact ⟨rfl, rfl, rfl, rfl, rfl⟩

/-- C4: when the fetched issue list is empty the issue quick-pick is never
shown, and when the user cancels the quick-pick the run is not aborted; in
both cases the run continues to creation with no issue number. -/
theorem generatePR_issue_optional (env : Env) (b : Branches) (g : GeneratedPR)
    (draft : Bool) (h : ReachesValidate env b g draft)
    (hd : ¬env.diff2.files.length = 0)
    (hni : env.issues = [] ∨ env.issuePick = none) :
    (generatePR env).createCalls ≠ [] ∧
    (∀ c ∈ (generatePR env).createCalls, c.issueNumber = none) ∧
    (env.issues = [] → (generatePR env).issuePickShown = false) := by
  have hnum := selectedIssueNumber_none env hni
  refine ⟨?_, ?_, ?_⟩
  · rw [generatePR_of_reachesValidate env b g draft h, if_neg hd,
      creationOutcome_createCalls]
    rcases createPhase_calls env draft (firstCallParams env b g draft) with hl | hl <;>
      rw [hl] <;> simp
  · intro c hc
    have hf := generatePR_calls_fields env b g h.toPreview c hc
    rw [hf.2.2.2.2, hnum]
  · intro hiss
    rw [generatePR_of_reachesValidate env b g draft h, if_neg hd,
      creationOutcome_issuePickShown]
    simp [issueUiShown, hiss]

/-- C5: the preview content is `title + "\n\n---\n\n" + body`, with
`"\n\nResolves #N"` appended when issue `N` was selected, and in that case
the body of every creation call also ends with `"\n\nResolves #N"` —
preview and final body carry the same issue-resolution reference. -/
theorem generatePR_preview_matches_body (env : Env) (b : Branches) (g : GeneratedPR)
    (h : ReachesPreview env b g) :
    (∀ n : Nat, selectedIssueNumber env = some n → n ≠ 0 →
      (generatePR env).previewShown =
        some (g.title ++ "\n\n---\n\n" ++ g.body ++ "\n\nResolves #" ++ toString n) ∧
      (∀ c ∈ (generatePR env).createCalls,
        c.body = g.body ++ "\n\nResolves #" ++ toString n)) ∧
    (selectedIssueNumber env = none →
      (generatePR env).previewShown = some (g.title ++ "\n\n---\n\n" ++ g.body) ∧
      (∀ c ∈ (generatePR env).createCalls, c.body = g.body)) := by
  constructor
  · intro n hn hnz
    have hmk : mkPreviewContent g (selectedIssueNumber env) =
        g.title ++ "\n\n---\n\n" ++ g.body ++ "\n\nResolves #" ++ toString n := by
      rw [hn]
      simp [mkPreviewContent, natTruthy, hnz]
    have hde : mkDescription g (selectedIssueNumber env) =
        g.body ++ "\n\nResolves #" ++ toString n := by
      rw [hn]
      simp [mkDescription, natTruthy, hnz]
    refine ⟨?_, ?_⟩
    · rw [generatePR_previewShown env b g h, hmk]
    · intro c hc
      rw [(generatePR_calls_fields env b g h c hc).2.2.2.1, hde]
  · intro hn
    have hmk : mkPreviewContent g (selectedIssueNumber env) =
        g.title ++ "\n\n---\n\n" ++ g.body := by
      rw [hn]
      simp [mkPreviewContent, natTruthy]
    have hde : mkDescription g (selectedIssueNumber env) = g.body := by
      rw [hn]
      simp [mkDescription, natTruthy]
    refine ⟨?_, ?_⟩
    · rw [generatePR_previewShown env b g h, hmk]
    · intro c hc
      rw [(generatePR_calls_fields env b g h c hc).2.2.2.1, hde]

/-- C6: on every exit path no preview handle stays live, every exit on
which a preview was shown performs the cleanup (close tabs + delete the
transient directory) exactly once, and every successful run performs it
exactly once. -/
theorem generatePR_cleanup_every_exit (env : Env) :
    (generatePR env).previewLiveAtEnd = false ∧
    ((generatePR env).previewShown ≠ none → (generatePR env).cleanupCount = 1) ∧
    ((generatePR env).prResult ≠ none → (generatePR env).cleanupCount = 1) := by
  unfold generatePR
  repeat' split
  all_goals
    simp [RunResult.quiet, creationOutcome_previewLiveAtEnd,
      creationOutcome_cleanupCount, creationOutcome_previewShown]

/-- C7: a commit-generation run fetches the staged diff first; when it is
empty all working-tree changes are staged and the diff re-fetched; when it
is still empty a nothing-to-commit warning is shown and no completion call
is made; otherwise the completion result is written into the input box —
and the system never commits by itself. -/
theorem generateMessage_flow (env : CommitEnv)
    (hk : strTruthy env.apiKey = true) :
    (generateMessageCommand env).committed = false ∧
    (env.stagedDiff1 = "" → env.stagedDiff2 = "" →
      (generateMessageCommand env).stageAllCalled = true ∧
      (generateMessageCommand env).warnings = ["No changes to commit"] ∧
      (generateMessageCommand env).aiCalled = false ∧
      (generateMessageCommand env).inputBoxValue = none) ∧
    (env.stagedDiff1 = "" → env.stagedDiff2 ≠ "" →
      (generateMessageCommand env).stageAllCalled = true ∧
      (generateMessageCommand env).aiCalled = true ∧
      (∀ msg : String, env.aiResult = .ok msg →
        (generateMessageCommand env).inputBoxValue = some msg)) ∧
    (env.stagedDiff1 ≠ "" →
      (generateMessageCommand env).stageAllCalled = false ∧
      (generateMessageCommand env).aiCalled = true ∧
      (∀ msg : String, env.aiResult = .ok msg →
        (generateMessageCommand env).inputBoxValue = some msg)) := by
  have hcmd : generateMessageCommand env = generateMessageBody env := by
    simp [generateMessageCommand, hk]
  rw [hcmd]
  refine ⟨?_, ?_, ?_, ?_⟩
  · by_cases h1 : env.stagedDiff1 = ""
    · by_cases h2 : env.stagedDiff2 = ""
      · simp [generateMessageBody, h1, h2, CommitResult.quiet]
      · cases ha : env.aiResult <;>
          simp [generateMessageBody, h1, h2, ha, CommitResult.quiet]
    · cases ha : env.aiResult <;>
        simp [generateMessageBody, h1, ha, CommitResult.quiet]
  · intro h1 h2
    simp [generateMessageBody, h1, h2, CommitResult.quiet]
  · intro h1 h2
    cases ha : env.aiResult with
    | ok msg =>
        simp [generateMessageBody, h1, h2, ha, CommitResult.quiet]
    | error e =>
        refine ⟨?_, ?_, ?_⟩ <;>
          simp [generateMessageBody, h1, h2, ha, CommitResult.quiet]
  · intro h1
    cases ha : env.aiResult with
    | ok msg =>
        simp [generateMessageBody, h1, ha, CommitResult.quiet]
    | error e =>
        refine ⟨?_, ?_, ?_⟩ <;>
          simp [generateMessageBody, h1, ha, CommitResult.quiet]

/-- Witness for the fallback theorem at the concrete fallback
environment. -/
theorem generatePR_draft_fallback_witness :
    (generatePR sampleEnvFallback).createCalls =
      [firstCallParams sampleEnvFallback ⟨"main", "feature/x"⟩ ⟨"feat: add x", "body text"⟩ true,
       { firstCallParams sampleEnvFallback ⟨"main", "feature/x"⟩
            ⟨"feat: add x", "body text"⟩ true with
          draft := false }] ∧
    (generatePR sampleEnvFallback).prResult =
      some ⟨some 43, false, "https://example.test/43"⟩ := by
  have h := generatePR_draft_fallback sampleEnvFallback ⟨"main", "feature/x"⟩
    ⟨"feat: add x", "body text"⟩
    ⟨rfl, rfl, rfl, rfl, rfl, rfl, rfl⟩ (by decide)
    ⟨"Validation Failed: Draft pull requests are not supported in this repository.", none⟩
    rfl (by decide)
  exact ⟨h.1, h.2 ⟨some 43, false, "https://example.test/43"⟩ rfl (by decide)⟩

/-- Witness for the empty-Validate-diff theorem. -/
theorem generatePR_empty_validate_diff_witness :
    (generatePR sampleEnvEmptyDiff).createCalls = [] ∧
    (generatePR sampleEnvEmptyDiff).errors =
      ["No changes found between selected branches. Please make some changes before creating a PR."] :=
  generatePR_empty_validate_diff sampleEnvEmptyDiff ⟨"main", "feature/x"⟩
    ⟨"feat: add x", "body text"⟩ false ⟨rfl, rfl, rfl, rfl, rfl, rfl, rfl⟩ rfl

/-- Witness for the invalid-record theorem: the first call answers with no
record at all. -/
theorem generatePR_invalid_record_fails_witness :
    (generatePR sampleEnvInvalidResp).prResult = none ∧
    (generatePR sampleEnvInvalidResp).errors ≠ [] ∧
    (generatePR sampleEnvInvalidResp).openedUrl = none :=
  (generatePR_invalid_record_fails sampleEnvInvalidResp ⟨"main", "feature/x"⟩
    ⟨"feat: add x", "body text"⟩ false ⟨rfl, rfl, rfl, rfl, rfl, rfl, rfl⟩
    (by decide)).1 none rfl rfl

/-- Witness for the optional-issue theorem: no issues fetched. -/
theorem generatePR_issue_optional_witness :
    (generatePR sampleEnv).createCalls ≠ [] ∧
    (∀ c ∈ (generatePR sampleEnv).createCalls, c.issueNumber = none) ∧
    (generatePR sampleEnv).issuePickShown = false := by
  have h := generatePR_issue_optional sampleEnv ⟨"main", "feature/x"⟩
    ⟨"feat: add x", "body text"⟩ false ⟨rfl, rfl, rfl, rfl, rfl, rfl, rfl⟩ (by decide)
    (Or.inl rfl)
  exact ⟨h.1, h.2.1, h.2.2 rfl⟩

/-- Witness for the preview/body theorem: issue #7 selected. -/
theorem generatePR_preview_matches_body_witness :
    (generatePR sampleEnvIssue).previewShown =
      some ("feat: add x" ++ "\n\n---\n\n" ++ "body text" ++ "\n\nResolves #" ++ toString 7) ∧
    (∀ c ∈ (generatePR sampleEnvIssue).createCalls,
      c.body = "body text" ++ "\n\nResolves #" ++ toString 7) := by
  have h := (generatePR_preview_matches_body sampleEnvIssue ⟨"main", "feature/x"⟩
    ⟨"feat: add x", "body text"⟩ ⟨rfl, rfl, rfl, rfl, rfl, rfl⟩).1 7 rfl (by decide)
  exact h

/-- Witness for the cleanup theorem at the plain successful run. -/
theorem generatePR_cleanup_every_exit_witness :
    (generatePR sampleEnv).previewLiveAtEnd = false ∧
    (generatePR sampleEnv).cleanupCount = 1 := by
  have h := generatePR_cleanup_every_exit sampleEnv
  refine ⟨h.1, h.2.1 ?_⟩
  decide

/-- Witness for the commit-generation theorem: empty staged diff, changes
staged automatically, completion succeeds. -/
theorem generateMessage_flow_witness :
    (generateMessageCommand sampleCommitEnv).committed = false ∧
    (generateMessageCommand sampleCommitEnv).stageAllCalled = true ∧
    (generateMessageCommand sampleCommitEnv).aiCalled = true ∧
    (generateMessageCommand sampleCommitEnv).inputBoxValue = some "feat: add feature" := by
  have h := generateMessage_flow sampleCommitEnv (by decide)
  have h3 := h.2.2.1 rfl (by decide)
  exact ⟨h.1, h3.1, h3.2.1, h3.2.2 "feat: add feature" rfl⟩

/-- Witness for the rethrow theorem: a draft request failing with an
unrelated error. -/
theorem generatePR_no_fallback_other_errors_witness :
    (generatePR sampleEnvOtherError).createCalls =
      [firstCallParams sampleEnvOtherError ⟨"main", "feature/x"⟩
        ⟨"feat: add x", "body text"⟩ true] ∧
    (generatePR sampleEnvOtherError).prResult = none ∧
    (generatePR sampleEnvOtherError).errors =
      [classifyError ⟨"Validation Failed: A pull request already exists.", none⟩] :=
  generatePR_no_fallback_other_errors sampleEnvOtherError ⟨"main", "feature/x"⟩
    ⟨"feat: add x", "body text"⟩ true ⟨rfl, rfl, rfl, rfl, rfl, rfl, rfl⟩ (by decide)
    ⟨"Validation Failed: A pull request already exists.", none⟩ rfl (by decide)

end OtakCommitter
